import Mathlib

/-!
Shallow embedding of the API behavior tracker (src/app.py) and proofs of the
specification claims.  Time instants (datetime values) are modelled as rational
numbers of seconds; SQL float/numeric values as rationals; the record store as
a list of records together with the next storage-assigned id.
-/

namespace APITracker

/-- One persisted request observation (source: class APIRequest, src/app.py). -/
structure APIRequest where
  id : Nat
  endpoint : String
  method : String
  status_code : Nat
  latency_ms : ℚ
  timestamp : ℚ
  ip_address : Option String
  user_agent : Option String
deriving DecidableEq

/-- The durable record store: the table of persisted rows plus the next
storage-assigned primary key. -/
structure Store where
  nextId : Nat
  records : List APIRequest
deriving DecidableEq

/-- The inbound HTTP request, as seen by the middleware. -/
structure HttpRequest where
  path : String
  method : String
  remote_addr : Option String
  user_agent_header : Option String
deriving DecidableEq

/-- The outgoing HTTP response produced by the handler. -/
structure HttpResponse where
  status_code : Nat
  body : String
deriving DecidableEq

/-- A locally logged diagnostic line (logger.warning / logger.error). -/
inductive LogEntry where
  | warning (msg : String)
  | error (msg : String)
deriving DecidableEq

/-- Environment of one middleware invocation: whether the CloudWatch client is
configured, the outcome of put_log_events when it is called, and the outcome of
the database add+commit when it is attempted. -/
structure World where
  cloudwatch_configured : Bool
  emitResult : Except String Unit
  commitResult : Except String Unit

/-- Result of one log_response invocation: the response handed back to the
framework, the store state afterwards, and the locally logged lines. -/
structure LogResponseResult where
  response : HttpResponse
  store : Store
  logs : List LogEntry
deriving DecidableEq

/-- Embedding of log_response (src/app.py lines 95-138).  Computes latency,
extracts the request details, best-effort emits one CloudWatch line (failure
logged as a warning), then constructs an APIRequest row and commits it; on
commit failure the session is rolled back (store unchanged) and an error is
logged.  The original response object is returned. -/
def log_response (w : World) (store : Store) (req : HttpRequest)
    (response : HttpResponse) (start_time now : ℚ) : LogResponseResult :=
  let latency_ms : ℚ := (now - start_time) * 1000
  let endpoint := req.path
  let method := req.method
  let status_code := response.status_code
  let ip_address := req.remote_addr
  let user_agent := req.user_agent_header.getD ""
  let sinkLogs : List LogEntry :=
    if w.cloudwatch_configured then
      match w.emitResult with
      | .ok _ => []
      | .error e => [.warning ("Failed to log to CloudWatch: " ++ e)]
    else []
  match w.commitResult with
  | .ok _ =>
      let newRow : APIRequest :=
        { id := store.nextId
          endpoint := endpoint
          method := method
          status_code := status_code
          latency_ms := latency_ms
          timestamp := now
          ip_address := ip_address
          user_agent := some user_agent }
      { response := response
        store := { nextId := store.nextId + 1, records := store.records ++ [newRow] }
        logs := sinkLogs }
  | .error e =>
      { response := response
        store := store
        logs := sinkLogs ++ [.error ("Failed to log request to database: " ++ e)] }

/-- The row that a successful commit appends, as a function of the inputs. -/
def committedRow (store : Store) (req : HttpRequest) (response : HttpResponse)
    (start_time now : ℚ) : APIRequest :=
  { id := store.nextId
    endpoint := req.path
    method := req.method
    status_code := response.status_code
    latency_ms := (now - start_time) * 1000
    timestamp := now
    ip_address := req.remote_addr
    user_agent := some (req.user_agent_header.getD "") }

/-!
Aggregation engine (src/app.py lines 151-353).  Every query computes
time_threshold = now - timedelta(hours=hours) and filters on
timestamp >= time_threshold.  Hours are converted to 3600 seconds.
-/

/-- The SQL filter APIRequest.timestamp >= now - timedelta(hours=hours). -/
def inWindow (now : ℚ) (hours : Nat) (r : APIRequest) : Bool :=
  decide (now - (hours : ℚ) * 3600 ≤ r.timestamp)

/-- The in-window rows of the table, in storage order. -/
def windowRecords (now : ℚ) (hours : Nat) (records : List APIRequest) :
    List APIRequest :=
  records.filter (inWindow now hours)

/-- The group-by key of a row: the (endpoint, method) pair. -/
def pairKey (r : APIRequest) : String × String :=
  (r.endpoint, r.method)

/-- The distinct (endpoint, method) keys occurring in a row list, in first
occurrence order (GROUP BY endpoint, method). -/
def groupKeys (rs : List APIRequest) : List (String × String) :=
  (rs.map pairKey).dedup

/-- COUNT(id) restricted to one group. -/
def countPair (rs : List APIRequest) (k : String × String) : Nat :=
  rs.countP (fun r => decide (pairKey r = k))

/-- SQL ROUND(x, 2): round to two decimal places. -/
def round2 (q : ℚ) : ℚ := (round (q * 100) : ℤ) / 100

/-- One row of the most-used query result. -/
structure UsageRow where
  endpoint : String
  method : String
  request_count : Nat
deriving DecidableEq

/-- Descending order on request_count (ORDER BY count DESC). -/
def usageGe (a b : UsageRow) : Prop := b.request_count ≤ a.request_count

instance : DecidableRel usageGe := fun a b => by unfold usageGe; infer_instance

instance : IsTotal UsageRow usageGe :=
  ⟨fun a b => le_total b.request_count a.request_count⟩

instance : IsTrans UsageRow usageGe :=
  ⟨fun _ _ _ h h2 => le_trans h2 h⟩

/-- Embedding of get_most_used_endpoints (src/app.py lines 153-186): group the
in-window rows by (endpoint, method), count, order by count descending, take
the first limit groups. -/
def get_most_used_endpoints (now : ℚ) (hours limit : Nat)
    (records : List APIRequest) : List UsageRow :=
  let wr := windowRecords now hours records
  (((groupKeys wr).map fun k =>
      UsageRow.mk k.1 k.2 (countPair wr k)).insertionSort usageGe).take limit

/-- One row of the error-rates query result. -/
structure ErrorRateRow where
  endpoint : String
  method : String
  total : Nat
  errors : Nat
  error_rate_percent : ℚ
deriving DecidableEq

/-- Descending order on error_rate_percent (ORDER BY error_rate_percent DESC). -/
def rateGe (a b : ErrorRateRow) : Prop :=
  b.error_rate_percent ≤ a.error_rate_percent

instance : DecidableRel rateGe := fun a b => by unfold rateGe; infer_instance

instance : IsTotal ErrorRateRow rateGe :=
  ⟨fun a b => le_total b.error_rate_percent a.error_rate_percent⟩

instance : IsTrans ErrorRateRow rateGe :=
  ⟨fun _ _ _ h h2 => le_trans h2 h⟩

/-- The total_requests subquery of get_error_rates: per-key row counts over the
window. -/
def total_requests_subquery (now : ℚ) (hours : Nat)
    (records : List APIRequest) : List ((String × String) × Nat) :=
  let wr := windowRecords now hours records
  (groupKeys wr).map fun k => (k, countPair wr k)

/-- The error_requests subquery of get_error_rates: per-key row counts over the
in-window rows with status_code >= 400. -/
def error_requests_subquery (now : ℚ) (hours : Nat)
    (records : List APIRequest) : List ((String × String) × Nat) :=
  let errs := (windowRecords now hours records).filter
    (fun r => decide (400 ≤ r.status_code))
  (groupKeys errs).map fun k => (k, countPair errs k)

/-- COALESCE(error_requests.errors, 0) after the outer join on the key. -/
def coalescedErrors (errRows : List ((String × String) × Nat))
    (k : String × String) : Nat :=
  ((errRows.find? fun p => decide (p.1 = k)).map (fun p => p.2)).getD 0

/-- The joined, unordered rows of get_error_rates: one row per key of the
total subquery, with COALESCE(errors, 0) and
ROUND(errors * 100.0 / total, 2). -/
def error_rate_rows (now : ℚ) (hours : Nat) (records : List APIRequest) :
    List ErrorRateRow :=
  let errRows := error_requests_subquery now hours records
  (total_requests_subquery now hours records).map fun kt =>
    let e := coalescedErrors errRows kt.1
    ErrorRateRow.mk kt.1.1 kt.1.2 kt.2 e
      (round2 ((e : ℚ) * 100 / (kt.2 : ℚ)))

/-- Embedding of get_error_rates (src/app.py lines 189-251): outer-join the
total subquery with the error subquery on (endpoint, method), coalesce missing
error counts to 0, compute round(errors * 100.0 / total, 2), order by the rate
descending. -/
def get_error_rates (now : ℚ) (hours : Nat) (records : List APIRequest) :
    List ErrorRateRow :=
  (error_rate_rows now hours records).insertionSort rateGe

/-- One row of the response-times query result. -/
structure LatencyRow where
  endpoint : String
  method : String
  avg_latency_ms : ℚ
  min_latency_ms : ℚ
  max_latency_ms : ℚ
  request_count : Nat
deriving DecidableEq

/-- Descending order on avg_latency_ms (ORDER BY avg_latency DESC). -/
def avgGe (a b : LatencyRow) : Prop := b.avg_latency_ms ≤ a.avg_latency_ms

instance : DecidableRel avgGe := fun a b => by unfold avgGe; infer_instance

instance : IsTotal LatencyRow avgGe :=
  ⟨fun a b => le_total b.avg_latency_ms a.avg_latency_ms⟩

instance : IsTrans LatencyRow avgGe :=
  ⟨fun _ _ _ h h2 => le_trans h2 h⟩

/-- Sum of the latencies of a row list. -/
def latencySum (rs : List APIRequest) : ℚ :=
  (rs.map (fun r => r.latency_ms)).sum

/-- Embedding of get_average_response_times (src/app.py lines 254-291): per
(endpoint, method) group, average/min/max latency each rounded to 2 decimals,
plus the group count, ordered by average latency descending.  AVG over a
nonempty group is sum / count; MIN and MAX fold over the group members. -/
def get_average_response_times (now : ℚ) (hours : Nat)
    (records : List APIRequest) : List LatencyRow :=
  let wr := windowRecords now hours records
  ((groupKeys wr).map fun k =>
    let grp := wr.filter (fun r => decide (pairKey r = k))
    let lats := grp.map (fun r => r.latency_ms)
    LatencyRow.mk k.1 k.2
      (round2 (lats.sum / (grp.length : ℚ)))
      (round2 (lats.foldr min (lats.headD 0)))
      (round2 (lats.foldr max (lats.headD 0)))
      grp.length).insertionSort avgGe

/-- The summary object of get_summary. -/
structure Summary where
  total_requests : Nat
  error_count : Nat
  error_rate_percent : ℚ
  avg_latency_ms : ℚ
  unique_endpoints : Nat
deriving DecidableEq

/-- Embedding of get_summary (src/app.py lines 294-332): scalar COUNT, error
COUNT (status_code >= 400), AVG latency (NULL coalesced to 0 when the window is
empty), COUNT(DISTINCT endpoint); the error rate divides by
(total_requests or 1), i.e. by 1 when the window holds no rows. -/
def get_summary (now : ℚ) (hours : Nat) (records : List APIRequest) : Summary :=
  let wr := windowRecords now hours records
  let total_requests := wr.length
  let error_count := wr.countP (fun r => decide (400 ≤ r.status_code))
  let avg_latency : ℚ :=
    if wr.length = 0 then 0 else latencySum wr / (wr.length : ℚ)
  let unique_endpoints := (wr.map (fun r => r.endpoint)).dedup.length
  { total_requests := total_requests
    error_count := error_count
    error_rate_percent :=
      round2 ((error_count : ℚ) * 100 /
        ((if total_requests = 0 then 1 else total_requests : Nat) : ℚ))
    avg_latency_ms := round2 avg_latency
    unique_endpoints := unique_endpoints }

/-- The response of the recent-requests query. -/
structure RecentResult where
  count : Nat
  requests : List APIRequest
deriving DecidableEq

/-- Descending order on timestamp (ORDER BY timestamp DESC). -/
def tsGe (a b : APIRequest) : Prop := b.timestamp ≤ a.timestamp

instance : DecidableRel tsGe := fun a b => by unfold tsGe; infer_instance

instance : IsTotal APIRequest tsGe :=
  ⟨fun a b => le_total b.timestamp a.timestamp⟩

instance : IsTrans APIRequest tsGe :=
  ⟨fun _ _ _ h h2 => le_trans h2 h⟩

/-- Embedding of get_recent_requests (src/app.py lines 335-353): the in-window
rows ordered by timestamp descending, truncated to limit; count is the length
of the returned list. -/
def get_recent_requests (now : ℚ) (hours limit : Nat)
    (records : List APIRequest) : RecentResult :=
  let rs := ((windowRecords now hours records).insertionSort tsGe).take limit
  { count := rs.length, requests := rs }

/-!
Processing a sequence of request/response cycles through the middleware.
-/

/-- Run log_response over a sequence of (request, response, start, now)
events, threading the store. -/
def processAll (w : World) (store : Store)
    (events : List (HttpRequest × HttpResponse × ℚ × ℚ)) : Store :=
  match events with
  | [] => store
  | (req, resp, st, now) :: rest =>
      processAll w (log_response w store req resp st now).store rest

/-- Store invariant: persisted ids are pairwise distinct and all below the
next storage-assigned id.  Holds of the empty table with nextId = 1. -/
def StoreInv (s : Store) : Prop :=
  (s.records.map (fun r => r.id)).Nodup ∧ ∀ r ∈ s.records, r.id < s.nextId

/-!
Demonstration data shared by the concrete witnesses below.
-/

/-- A middleware environment with no CloudWatch client and working storage. -/
def demoWorld : World := ⟨false, .ok (), .ok ()⟩

/-- A middleware environment whose storage commit raises. -/
def demoWorldDbDown : World := ⟨false, .ok (), .error "db down"⟩

/-- A middleware environment whose CloudWatch emit raises. -/
def demoWorldSinkDown : World := ⟨true, .error "sink down", .ok ()⟩

/-- An empty store about to assign id 1. -/
def demoStore : Store := ⟨1, []⟩

/-- A sample inbound request. -/
def demoReq : HttpRequest := ⟨"/x", "GET", some "10.0.0.1", some "curl"⟩

/-- A sample handler response. -/
def demoResp : HttpResponse := ⟨200, "ok"⟩

/-- A persisted row with the given id and timestamp on GET /a with status 200. -/
def recAt (i : Nat) (ts : ℚ) : APIRequest :=
  ⟨i, "/a", "GET", 200, 1, ts, none, none⟩

/-- A persisted row on a chosen endpoint and method with the given status. -/
def recOn (i : Nat) (endpoint method : String) (status ts : Nat) : APIRequest :=
  ⟨i, endpoint, method, status, 1, (ts : ℚ), none, none⟩

/-- The sink-side log lines of one invocation hold no error entry. -/
lemma sinkLogs_no_error (w : World) (m : String) :
    LogEntry.error m ∉
      (if w.cloudwatch_configured then
        match w.emitResult with
        | .ok _ => ([] : List LogEntry)
        | .error e => [.warning ("Failed to log to CloudWatch: " ++ e)]
      else []) := by
  cases hcw : w.cloudwatch_configured <;> cases he : w.emitResult <;> simp

/-- On a successful commit, log_response appends exactly the committed row,
bumps nextId, and keeps the sink-side logs. -/
lemma log_response_commit_ok (w : World) (store : Store) (req : HttpRequest)
    (resp : HttpResponse) (st now : ℚ) (hc : w.commitResult = .ok ()) :
    (log_response w store req resp st now).store =
      { nextId := store.nextId + 1
        records := store.records ++ [committedRow store req resp st now] } := by
  simp only [log_response, hc, committedRow]

/-- On a failed commit, log_response rolls back: the store is unchanged. -/
lemma log_response_commit_error (w : World) (store : Store) (req : HttpRequest)
    (resp : HttpResponse) (st now : ℚ) (e : String)
    (hc : w.commitResult = .error e) :
    (log_response w store req resp st now).store = store := by
  simp only [log_response, hc]

/-- A successful commit preserves the store invariant. -/
lemma StoreInv_commit_ok (w : World) (store : Store) (req : HttpRequest)
    (resp : HttpResponse) (st now : ℚ) (hc : w.commitResult = .ok ())
    (hinv : StoreInv store) :
    StoreInv (log_response w store req resp st now).store := by
  rw [log_response_commit_ok w store req resp st now hc]
  obtain ⟨hnd, hlt⟩ := hinv
  refine ⟨?_, ?_⟩
  · simp only [List.map_append, List.map_cons, List.map_nil, committedRow]
    rw [List.nodup_append]
    refine ⟨hnd, List.nodup_singleton _, ?_⟩
    intro a ha hb
    simp only [List.mem_singleton] at hb
    subst hb
    obtain ⟨r, hr, hrid⟩ := List.mem_map.mp ha
    exact absurd hrid (Nat.ne_of_lt (hlt r hr))
  · intro r hr
    rcases List.mem_append.mp hr with h | h
    · exact Nat.lt_succ_of_lt (hlt r h)
    · simp only [List.mem_singleton] at h
      subst h
      exact Nat.lt_succ_self _

/-- Processing any event sequence under successful persistence adds one row per
event, keeps the invariant, and leaves the old rows as an unchanged prefix. -/
lemma processAll_commit_ok (w : World) (hc : w.commitResult = .ok ()) :
    ∀ (events : List (HttpRequest × HttpResponse × ℚ × ℚ)) (store : Store),
      StoreInv store →
      (processAll w store events).records.length =
        store.records.length + events.length ∧
      StoreInv (processAll w store events) ∧
      ∃ t, (processAll w store events).records = store.records ++ t := by
  intro events
  induction events with
  | nil =>
      intro store hinv
      exact ⟨rfl, hinv, [], by simp [processAll]⟩
  | cons ev rest ih =>
      intro store hinv
      obtain ⟨req, resp, st, now⟩ := ev
      have hstep := log_response_commit_ok w store req resp st now hc
      have hinv2 := StoreInv_commit_ok w store req resp st now hc hinv
      have hrec := ih (log_response w store req resp st now).store hinv2
      obtain ⟨hlen, hinv3, t, ht⟩ := hrec
      refine ⟨?_, hinv3, ?_⟩
      · simp only [processAll] at *
        rw [hlen, hstep]
        simp only [List.length_append, List.length_cons, List.length_nil]
        omega
      · refine ⟨committedRow store req resp st now :: t, ?_⟩
        simp only [processAll] at *
        rw [ht, hstep]
        simp

/-!
Claims about the Recorder middleware.
-/

/-- Claim C1: for every intercepted request/response cycle, log_response
returns the original response object unmodified, whatever the sink
configuration, the sink outcome and the persistence outcome are. -/
theorem claim_C1_response_unmodified (w : World) (store : Store)
    (req : HttpRequest) (resp : HttpResponse) (st now : ℚ) :
    (log_response w store req resp st now).response = resp := by
  cases hc : w.commitResult <;> simp [log_response, hc]

/-- Claim C2: if the commit of the record raises, log_response swallows the
failure, logs it as an error, leaves the store unchanged (rollback), and still
returns the original response. -/
theorem claim_C2_persistence_failure_swallowed (w : World) (store : Store)
    (req : HttpRequest) (resp : HttpResponse) (st now : ℚ) (e : String)
    (hc : w.commitResult = .error e) :
    (log_response w store req resp st now).store = store ∧
    LogEntry.error ("Failed to log request to database: " ++ e) ∈
      (log_response w store req resp st now).logs ∧
    (log_response w store req resp st now).response = resp := by
  refine ⟨log_response_commit_error w store req resp st now e hc, ?_, ?_⟩
  · simp [log_response, hc]
  · simp [log_response, hc]

/-- Concrete witness for claim C2: a store whose commit raises "db down". -/
theorem claim_C2_witness :
    demoWorldDbDown.commitResult = .error "db down" ∧
    ((log_response demoWorldDbDown demoStore demoReq demoResp 0 1).store =
        demoStore ∧
      LogEntry.error ("Failed to log request to database: " ++ "db down") ∈
        (log_response demoWorldDbDown demoStore demoReq demoResp 0 1).logs ∧
      (log_response demoWorldDbDown demoStore demoReq demoResp 0 1).response =
        demoResp) :=
  ⟨rfl, claim_C2_persistence_failure_swallowed demoWorldDbDown demoStore demoReq
    demoResp 0 1 "db down" rfl⟩

/-- Claim C3: when the commit succeeds, a failing (or absent) sink never
prevents persistence — the record is still appended — the original response is
returned, no error is logged, and a failing configured sink logs a warning. -/
theorem claim_C3_sink_failure_swallowed (w : World) (store : Store)
    (req : HttpRequest) (resp : HttpResponse) (st now : ℚ)
    (hc : w.commitResult = .ok ()) :
    (log_response w store req resp st now).store.records =
      store.records ++ [committedRow store req resp st now] ∧
    (log_response w store req resp st now).response = resp ∧
    (∀ m, LogEntry.error m ∉ (log_response w store req resp st now).logs) ∧
    (∀ e, w.cloudwatch_configured = true → w.emitResult = .error e →
      LogEntry.warning ("Failed to log to CloudWatch: " ++ e) ∈
        (log_response w store req resp st now).logs) := by
  refine ⟨?_, claim_C1_response_unmodified w store req resp st now, ?_, ?_⟩
  · rw [log_response_commit_ok w store req resp st now hc]
  · intro m
    have h := sinkLogs_no_error w m
    simp only [log_response, hc]
    cases hcw : w.cloudwatch_configured <;> cases he : w.emitResult <;>
      simp_all
  · intro e hcw he
    simp [log_response, hc, hcw, he]

/-- Concrete witness for claim C3: a configured sink that raises "sink down"
while the commit succeeds. -/
theorem claim_C3_witness :
    demoWorldSinkDown.commitResult = .ok () ∧
    ((log_response demoWorldSinkDown demoStore demoReq demoResp 0 1).store.records
        = demoStore.records ++ [committedRow demoStore demoReq demoResp 0 1] ∧
      (log_response demoWorldSinkDown demoStore demoReq demoResp 0 1).response =
        demoResp ∧
      (∀ m, LogEntry.error m ∉
        (log_response demoWorldSinkDown demoStore demoReq demoResp 0 1).logs) ∧
      (∀ e, demoWorldSinkDown.cloudwatch_configured = true →
        demoWorldSinkDown.emitResult = .error e →
        LogEntry.warning ("Failed to log to CloudWatch: " ++ e) ∈
          (log_response demoWorldSinkDown demoStore demoReq demoResp 0 1).logs)) :=
  ⟨rfl, claim_C3_sink_failure_swallowed demoWorldSinkDown demoStore demoReq
    demoResp 0 1 rfl⟩

/-- Claim C6: for every sequence of N intercepted cycles whose persistence
succeeds, exactly N records are appended, the persisted ids stay pairwise
distinct, and the previously persisted rows remain an unchanged prefix (the
middleware only ever appends; it never updates or deletes a row). -/
theorem claim_C6_append_only (w : World) (store : Store)
    (events : List (HttpRequest × HttpResponse × ℚ × ℚ))
    (hc : w.commitResult = .ok ()) (hinv : StoreInv store) :
    (processAll w store events).records.length =
      store.records.length + events.length ∧
    ((processAll w store events).records.map (fun r => r.id)).Nodup ∧
    ∃ t, (processAll w store events).records = store.records ++ t := by
  obtain ⟨hlen, hinv2, ht⟩ := processAll_commit_ok w hc events store hinv
  exact ⟨hlen, hinv2.1, ht⟩

/-- Concrete witness for claim C6: two successful cycles on an empty store
yield exactly two records. -/
theorem claim_C6_witness :
    demoWorld.commitResult = .ok () ∧ StoreInv demoStore ∧
    ((processAll demoWorld demoStore
        [(demoReq, demoResp, 0, 1), (demoReq, demoResp, 1, 2)]).records.length =
      demoStore.records.length + 2 ∧
    ((processAll demoWorld demoStore
        [(demoReq, demoResp, 0, 1), (demoReq, demoResp, 1, 2)]).records.map
          (fun r => r.id)).Nodup ∧
    ∃ t, (processAll demoWorld demoStore
        [(demoReq, demoResp, 0, 1), (demoReq, demoResp, 1, 2)]).records =
      demoStore.records ++ t) :=
  ⟨rfl, ⟨by simp [demoStore], by simp [demoStore]⟩,
    claim_C6_append_only demoWorld demoStore
      [(demoReq, demoResp, 0, 1), (demoReq, demoResp, 1, 2)] rfl
      ⟨by simp [demoStore], by simp [demoStore]⟩⟩

/-!
Lemmas about the grouped subqueries and the outer join of get_error_rates.
-/

/-- A key occurs among the group keys exactly when some row carries it. -/
lemma mem_groupKeys {rs : List APIRequest} {k : String × String} :
    k ∈ groupKeys rs ↔ ∃ r ∈ rs, pairKey r = k := by
  simp [groupKeys, List.mem_dedup, List.mem_map]

/-- Searching a list for an element equal to k finds k exactly when k occurs. -/
lemma find?_eq_of_key {α : Type} [DecidableEq α] (l : List α) (k : α) :
    l.find? (fun x => decide (x = k)) = if k ∈ l then some k else none := by
  induction l with
  | nil => simp
  | cons a t ih =>
      by_cases h : a = k
      · subst h
        simp [List.find?_cons]
      · simp [List.find?_cons, h, ih, Ne.symm h]

/-- Looking a key up in a grouped count table coalesces to that key's count:
the count itself when the key has rows, 0 when it has none. -/
lemma coalescedErrors_grouped (rs : List APIRequest) (k : String × String) :
    coalescedErrors ((groupKeys rs).map fun j => (j, countPair rs j)) k =
      countPair rs k := by
  unfold coalescedErrors
  rw [List.find?_map]
  have hpred :
      ((fun p : (String × String) × Nat => decide (p.1 = k)) ∘
        fun j => (j, countPair rs j)) = fun j => decide (j = k) := rfl
  rw [hpred, find?_eq_of_key]
  by_cases h : k ∈ groupKeys rs
  · simp [h]
  · have hz : countPair rs k = 0 := by
      rw [countPair, List.countP_eq_zero]
      intro r hr
      simp only [decide_eq_true_eq]
      intro hk
      exact h (mem_groupKeys.mpr ⟨r, hr, hk⟩)
    simp [h, hz]

/-- The coalesced error count of a key equals the number of in-window rows of
that key with status_code >= 400. -/
lemma coalescedErrors_subquery (now : ℚ) (hours : Nat)
    (records : List APIRequest) (k : String × String) :
    coalescedErrors (error_requests_subquery now hours records) k =
      (windowRecords now hours records).countP
        (fun r => decide (pairKey r = k) && decide (400 ≤ r.status_code)) := by
  unfold error_requests_subquery
  rw [coalescedErrors_grouped]
  rw [countPair, List.countP_filter]

/-- Claim C4: the error-rates query covers every (endpoint, method) pair with
at least one in-window record; each row carries the error count of its pair
coalesced through the outer join (0 when the pair has no error records), its
rate is round(errors * 100 / total, 2) and is exactly 0 when the pair has no
errors; and the rows are ordered by error_rate_percent descending. -/
theorem claim_C4_error_rates (now : ℚ) (hours : Nat)
    (records : List APIRequest) :
    (∀ r ∈ windowRecords now hours records,
      ∃ row ∈ get_error_rates now hours records,
        row.endpoint = r.endpoint ∧ row.method = r.method) ∧
    (∀ row ∈ get_error_rates now hours records,
      row.errors = (windowRecords now hours records).countP
          (fun s => decide (pairKey s = (row.endpoint, row.method)) &&
            decide (400 ≤ s.status_code)) ∧
      row.error_rate_percent =
        round2 ((row.errors : ℚ) * 100 / (row.total : ℚ)) ∧
      (row.errors = 0 → row.error_rate_percent = 0)) ∧
    List.Sorted rateGe (get_error_rates now hours records) := by
  refine ⟨?_, ?_, List.sorted_insertionSort rateGe _⟩
  · intro r hr
    have hk : pairKey r ∈ groupKeys (windowRecords now hours records) :=
      mem_groupKeys.mpr ⟨r, hr, rfl⟩
    have hrow :
        ErrorRateRow.mk (pairKey r).1 (pairKey r).2
            (countPair (windowRecords now hours records) (pairKey r))
            (coalescedErrors (error_requests_subquery now hours records)
              (pairKey r))
            (round2
              (((coalescedErrors (error_requests_subquery now hours records)
                  (pairKey r)) : ℚ) * 100 /
                ((countPair (windowRecords now hours records) (pairKey r)) : ℚ)))
          ∈ error_rate_rows now hours records := by
      unfold error_rate_rows total_requests_subquery
      simp only [List.map_map, List.mem_map, Function.comp]
      exact ⟨pairKey r, hk, rfl⟩
    have hsorted := (List.mem_insertionSort rateGe).mpr hrow
    rw [← get_error_rates] at hsorted
    exact ⟨_, hsorted, rfl, rfl⟩
  · intro row hrowSorted
    have hrow : row ∈ error_rate_rows now hours records := by
      rw [get_error_rates] at hrowSorted
      exact (List.mem_insertionSort rateGe).mp hrowSorted
    have hmem : ∃ k ∈ groupKeys (windowRecords now hours records),
        ErrorRateRow.mk k.1 k.2 (countPair (windowRecords now hours records) k)
            (coalescedErrors (error_requests_subquery now hours records) k)
            (round2
              (((coalescedErrors (error_requests_subquery now hours records) k) :
                  ℚ) * 100 /
                ((countPair (windowRecords now hours records) k) : ℚ)))
          = row := by
      unfold error_rate_rows total_requests_subquery at hrow
      simp only [List.map_map, List.mem_map, Function.comp] at hrow
      exact hrow
    obtain ⟨k, hk, hEq⟩ := hmem
    subst hEq
    refine ⟨?_, rfl, ?_⟩
    · show coalescedErrors (error_requests_subquery now hours records) k = _
      rw [coalescedErrors_subquery]
    · intro hz
      have hz2 : coalescedErrors (error_requests_subquery now hours records) k
          = 0 := hz
      show round2
          (((coalescedErrors (error_requests_subquery now hours records) k) :
            ℚ) * 100 / ((countPair (windowRecords now hours records) k) : ℚ))
        = 0
      rw [hz2]
      norm_num [round2]

/-- Concrete witness for claim C4: two all-success GET /x records in the
window yield a row for the pair GET /x. -/
theorem claim_C4_witness :
    ∃ row ∈ get_error_rates 100000 24
        [recOn 1 "/x" "GET" 200 90000, recOn 2 "/x" "GET" 200 90001],
      row.endpoint = (recOn 1 "/x" "GET" 200 90000).endpoint ∧
      row.method = (recOn 1 "/x" "GET" 200 90000).method :=
  (claim_C4_error_rates 100000 24
      [recOn 1 "/x" "GET" 200 90000, recOn 2 "/x" "GET" 200 90001]).1
    (recOn 1 "/x" "GET" 200 90000)
    (by simp only [windowRecords, List.mem_filter, inWindow, recOn,
          List.mem_cons, decide_eq_true_eq]
        norm_num)

/-- Two in-window records sharing the endpoint /x under different methods. -/
def demoMixed : List APIRequest :=
  [recOn 1 "/x" "GET" 200 90000, recOn 2 "/x" "POST" 200 90001]

/-- At now = 100000 with a 24 hour window, both demoMixed rows are in-window. -/
lemma windowRecords_demoMixed :
    windowRecords 100000 24 demoMixed = demoMixed := by
  unfold windowRecords demoMixed inWindow recOn
  norm_num

/-- Claim C5: the summary rate divides by the guarded denominator
max(total_requests, 1), and on an empty window the summary is all zeros. -/
theorem claim_C5_summary_guard (now : ℚ) (hours : Nat)
    (records : List APIRequest) :
    (get_summary now hours records).error_rate_percent =
      round2 (((get_summary now hours records).error_count : ℚ) * 100 /
        ((max (get_summary now hours records).total_requests 1 : Nat) : ℚ)) ∧
    (windowRecords now hours records = [] →
      get_summary now hours records = ⟨0, 0, 0, 0, 0⟩) := by
  constructor
  · have hden : (if (windowRecords now hours records).length = 0 then 1
        else (windowRecords now hours records).length) =
        max (windowRecords now hours records).length 1 := by
      split <;> omega
    simp only [get_summary]
    rw [hden]
  · intro hw
    simp only [get_summary, hw]
    norm_num [round2]

/-- Concrete witness for claim C5: the summary over an empty store. -/
theorem claim_C5_witness :
    windowRecords 0 24 [] = [] ∧ get_summary 0 24 [] = ⟨0, 0, 0, 0, 0⟩ :=
  ⟨rfl, (claim_C5_summary_guard 0 24 []).2 rfl⟩

/-- Claim C9: the unique_endpoints field of the summary counts distinct
endpoint values only, ignoring the method, while the other aggregations
produce one row per distinct (endpoint, method) pair: on two in-window records
GET /x and POST /x the summary counts 1 unique endpoint, yet the grouped
queries see 2 groups. -/
theorem claim_C9_unique_endpoints :
    (∀ (now : ℚ) (hours : Nat) (records : List APIRequest),
      (get_summary now hours records).unique_endpoints =
        ((windowRecords now hours records).map
          (fun r => r.endpoint)).toFinset.card) ∧
    (∀ (now : ℚ) (hours : Nat) (records : List APIRequest),
      (get_error_rates now hours records).length =
        (groupKeys (windowRecords now hours records)).length) ∧
    (get_summary 100000 24 demoMixed).unique_endpoints = 1 ∧
    (groupKeys (windowRecords 100000 24 demoMixed)).length = 2 := by
  refine ⟨?_, ?_, ?_, ?_⟩
  · intro now hours records
    simp [get_summary, List.card_toFinset]
  · intro now hours records
    simp [get_error_rates, error_rate_rows, total_requests_subquery]
  · simp only [get_summary, windowRecords_demoMixed]
    simp [demoMixed, recOn]
  · rw [windowRecords_demoMixed]
    simp [groupKeys, demoMixed, recOn, pairKey]

/-- Claim C7: the trailing window is inclusive at its lower boundary — a
record stamped exactly now - hours is in-window and counted — and over records
at now - 2h and now - 25h a 24 hour window keeps only the first while a 48
hour window keeps both. -/
theorem claim_C7_window_boundary :
    (∀ (now : ℚ) (hours : Nat) (r : APIRequest),
      r.timestamp = now - (hours : ℚ) * 3600 →
      inWindow now hours r = true ∧
      (get_summary now hours [r]).total_requests = 1) ∧
    (∀ now : ℚ,
      windowRecords now 24 [recAt 1 (now - 2 * 3600), recAt 2 (now - 25 * 3600)]
        = [recAt 1 (now - 2 * 3600)] ∧
      windowRecords now 48 [recAt 1 (now - 2 * 3600), recAt 2 (now - 25 * 3600)]
        = [recAt 1 (now - 2 * 3600), recAt 2 (now - 25 * 3600)] ∧
      (get_summary now 24
        [recAt 1 (now - 2 * 3600), recAt 2 (now - 25 * 3600)]).total_requests
        = 1 ∧
      (get_summary now 48
        [recAt 1 (now - 2 * 3600), recAt 2 (now - 25 * 3600)]).total_requests
        = 2) := by
  constructor
  · intro now hours r h
    have hin : inWindow now hours r = true := by
      simp [inWindow, h]
    refine ⟨hin, ?_⟩
    simp [get_summary, windowRecords, List.filter_cons, hin]
  · intro now
    have h124 : inWindow now 24 (recAt 1 (now - 2 * 3600)) = true := by
      simp only [inWindow, recAt, decide_eq_true_eq]
      push_cast
      linarith
    have h224 : inWindow now 24 (recAt 2 (now - 25 * 3600)) = false := by
      simp only [inWindow, recAt, decide_eq_false_iff_not]
      push_cast
      intro hcontra
      linarith
    have h148 : inWindow now 48 (recAt 1 (now - 2 * 3600)) = true := by
      simp only [inWindow, recAt, decide_eq_true_eq]
      push_cast
      linarith
    have h248 : inWindow now 48 (recAt 2 (now - 25 * 3600)) = true := by
      simp only [inWindow, recAt, decide_eq_true_eq]
      push_cast
      linarith
    refine ⟨?_, ?_, ?_, ?_⟩
    · simp [windowRecords, List.filter_cons, h124, h224]
    · simp [windowRecords, List.filter_cons, h148, h248]
    · simp [get_summary, windowRecords, List.filter_cons, h124, h224]
    · simp [get_summary, windowRecords, List.filter_cons, h148, h248]

/-- Concrete witness for claim C7: a record stamped exactly at the lower
boundary of a 24 hour window ending at now = 86400 is counted. -/
theorem claim_C7_witness :
    inWindow 86400 24 (recAt 1 0) = true ∧
    (get_summary 86400 24 [recAt 1 0]).total_requests = 1 :=
  claim_C7_window_boundary.1 86400 24 (recAt 1 0) (by norm_num [recAt])

/-- Claim C8: the recent-requests query returns at most limit records, its
count field is the length of the returned list, the returned records are in
descending timestamp order, and together with the dropped records they are a
permutation of the in-window records with every dropped record no newer than
every returned one. -/
theorem claim_C8_recent_requests (now : ℚ) (hours limit : Nat)
    (records : List APIRequest) :
    (get_recent_requests now hours limit records).requests.length ≤ limit ∧
    (get_recent_requests now hours limit records).count =
      (get_recent_requests now hours limit records).requests.length ∧
    List.Sorted tsGe (get_recent_requests now hours limit records).requests ∧
    ∃ dropped,
      (windowRecords now hours records).Perm
        ((get_recent_requests now hours limit records).requests ++ dropped) ∧
      ∀ a ∈ (get_recent_requests now hours limit records).requests,
        ∀ b ∈ dropped, b.timestamp ≤ a.timestamp := by
  have hpair : List.Pairwise tsGe
      ((windowRecords now hours records).insertionSort tsGe) :=
    List.sorted_insertionSort tsGe _
  refine ⟨?_, rfl, ?_,
    ((windowRecords now hours records).insertionSort tsGe).drop limit, ?_, ?_⟩
  · show (((windowRecords now hours records).insertionSort tsGe).take
      limit).length ≤ limit
    rw [List.length_take]
    exact Nat.min_le_left _ _
  · exact List.Pairwise.sublist (List.take_sublist _ _) hpair
  · have h1 : (windowRecords now hours records).Perm
        ((windowRecords now hours records).insertionSort tsGe) :=
      (List.perm_insertionSort tsGe _).symm
    rw [← List.take_append_drop limit
      ((windowRecords now hours records).insertionSort tsGe)] at h1
    exact h1
  · intro a ha b hb
    have hsplit : List.Pairwise tsGe
        ((((windowRecords now hours records).insertionSort tsGe).take limit) ++
          (((windowRecords now hours records).insertionSort tsGe).drop limit))
        := by
      rw [List.take_append_drop]
      exact hpair
    exact (List.pairwise_append.mp hsplit).2.2 a ha b hb

/-- Concrete witness for claim C8: limit 1 over the two-record demo store. -/
theorem claim_C8_witness :
    (get_recent_requests 100000 24 1 demoMixed).requests.length ≤ 1 ∧
    (get_recent_requests 100000 24 1 demoMixed).count =
      (get_recent_requests 100000 24 1 demoMixed).requests.length ∧
    List.Sorted tsGe (get_recent_requests 100000 24 1 demoMixed).requests ∧
    ∃ dropped,
      (windowRecords 100000 24 demoMixed).Perm
        ((get_recent_requests 100000 24 1 demoMixed).requests ++ dropped) ∧
      ∀ a ∈ (get_recent_requests 100000 24 1 demoMixed).requests,
        ∀ b ∈ dropped, b.timestamp ≤ a.timestamp :=
  claim_C8_recent_requests 100000 24 1 demoMixed

/-- Widening the window can only keep a record in-window. -/
lemma inWindow_mono (now : ℚ) {h1 h2 : Nat} (hle : h1 ≤ h2) (r : APIRequest) :
    inWindow now h1 r = true → inWindow now h2 r = true := by
  simp only [inWindow, decide_eq_true_eq]
  intro h
  have hc : ((h1 : ℚ)) ≤ (h2 : ℚ) := Nat.cast_le.mpr hle
  nlinarith

/-- Claim C10: with the store contents and now fixed, the summary counters are
monotone in the window size. -/
theorem claim_C10_summary_monotone (now : ℚ) (records : List APIRequest)
    (h1 h2 : Nat) (hle : h1 ≤ h2) :
    (get_summary now h1 records).total_requests ≤
      (get_summary now h2 records).total_requests ∧
    (get_summary now h1 records).error_count ≤
      (get_summary now h2 records).error_count := by
  constructor
  · show (windowRecords now h1 records).length ≤
      (windowRecords now h2 records).length
    unfold windowRecords
    rw [← List.countP_eq_length_filter, ← List.countP_eq_length_filter]
    exact List.countP_mono_left (fun r _ hp => inWindow_mono now hle r hp)
  · show (windowRecords now h1 records).countP _ ≤
      (windowRecords now h2 records).countP _
    unfold windowRecords
    rw [List.countP_filter, List.countP_filter]
    apply List.countP_mono_left
    intro r _
    simp only [Bool.and_eq_true, and_imp]
    exact fun hs hw => ⟨hs, inWindow_mono now hle r hw⟩

/-- Concrete witness for claim C10: windows of 1 and 2 hours over the demo
store. -/
theorem claim_C10_witness :
    1 ≤ 2 ∧
    ((get_summary 100000 1 demoMixed).total_requests ≤
        (get_summary 100000 2 demoMixed).total_requests ∧
      (get_summary 100000 1 demoMixed).error_count ≤
        (get_summary 100000 2 demoMixed).error_count) :=
  ⟨by norm_num, claim_C10_summary_monotone 100000 demoMixed 1 2 (by norm_num)⟩

end APITracker
